import Mathlib

/-!
Verification development for the ratingrelay reconciliation engine.

Strings are modeled as lists of characters (`Str`).  Python functions from
`relay.py`, `database.py`, `musicbrainz.py`, `listenbrainz.py`, `lastfm.py`
and `reset.py` are embedded as pure Lean functions; fallible Python code is
embedded with `Except` over an error type mirroring the Python exception
classes that can be raised.
-/

namespace RatingRelay

/-- Strings are modeled as lists of characters. -/
abbrev Str := List Char

/-- The ASCII apostrophe character (codepoint 39). -/
def apos : Char := Char.ofNat 39

/-- The smart-quote apostrophe (codepoint 8217) removed by comparison_format. -/
def smartQuote : Char := '’'

/-- ASCII case table pairing each uppercase letter with its lowercase form.
Models the case mapping performed by the Python lower call on the character
ranges the engine compares (service-reported titles and artists). -/
def upLow : List (Char × Char) :=
  [('A', 'a'), ('B', 'b'), ('C', 'c'), ('D', 'd'), ('E', 'e'), ('F', 'f'),
   ('G', 'g'), ('H', 'h'), ('I', 'i'), ('J', 'j'), ('K', 'k'), ('L', 'l'),
   ('M', 'm'), ('N', 'n'), ('O', 'o'), ('P', 'p'), ('Q', 'q'), ('R', 'r'),
   ('S', 's'), ('T', 't'), ('U', 'u'), ('V', 'v'), ('W', 'w'), ('X', 'x'),
   ('Y', 'y'), ('Z', 'z')]

/-- Case-folding of one character: the table image when the character is an
uppercase letter, the character itself otherwise. -/
def lowChar (c : Char) : Char :=
  match upLow.find? (fun p => p.1 == c) with
  | some p => p.2
  | none => c

/-- Python str.lower modeled characterwise. -/
def lowStr (s : Str) : Str := s.map lowChar

/-- Python str.replace specialized to a single-character needle, which is the
only form comparison_format uses: every occurrence of `c` is replaced by the
(possibly empty) string `rep`. -/
def replaceChar (c : Char) (rep : Str) : Str → Str
  | [] => []
  | a :: tl => (if a = c then rep else [a]) ++ replaceChar c rep tl

/-- comparison_format from relay.py:
`item.lower().replace(QUOTE, EMPTY).replace(SMARTQUOTE, EMPTY).replace(AMP, AND)`
where QUOTE is the ASCII apostrophe, SMARTQUOTE the smart quote, AMP the
ampersand and AND the three-letter word spelled a-n-d. -/
def comparison_format (s : Str) : Str :=
  replaceChar '&' ['a', 'n', 'd']
    (replaceChar smartQuote [] (replaceChar apos [] (lowStr s)))

theorem upLow_snd_fixed : ∀ p ∈ upLow, upLow.find? (fun q => q.1 == p.2) = none := by
  decide

theorem lowChar_fix (c : Char) : lowChar (lowChar c) = lowChar c := by
  rcases h : upLow.find? (fun p => p.1 == c) with _ | p
  · have h1 : lowChar c = c := by simp [lowChar, h]
    rw [h1]
    exact h1
  · have h1 : lowChar c = p.2 := by simp [lowChar, h]
    have hm : p ∈ upLow := List.mem_of_find?_eq_some h
    rw [h1]
    simp [lowChar, upLow_snd_fixed p hm]

theorem mem_lowStr {x : Char} {s : Str} (hx : x ∈ lowStr s) : ∃ y ∈ s, x = lowChar y := by
  rcases List.mem_map.mp hx with ⟨y, hy, hxy⟩
  exact ⟨y, hy, hxy.symm⟩

theorem lowStr_id : ∀ {s : Str}, (∀ x ∈ s, lowChar x = x) → lowStr s = s := by
  intro s
  induction s with
  | nil => intro _; rfl
  | cons a tl ih =>
    intro h
    show lowChar a :: lowStr tl = a :: tl
    rw [h a (by simp), ih (fun x hx => h x (by simp [hx]))]

theorem replaceChar_id {c : Char} {rep : Str} :
    ∀ {s : Str}, (∀ x ∈ s, x ≠ c) → replaceChar c rep s = s := by
  intro s
  induction s with
  | nil => intro _; rfl
  | cons a tl ih =>
    intro h
    have ha : ¬(a = c) := h a (by simp)
    show (if a = c then rep else [a]) ++ replaceChar c rep tl = a :: tl
    rw [if_neg ha, ih (fun x hx => h x (by simp [hx]))]
    rfl

theorem mem_replaceChar {x c : Char} {rep : Str} :
    ∀ {s : Str}, x ∈ replaceChar c rep s → x ∈ rep ∨ (x ∈ s ∧ x ≠ c) := by
  intro s
  induction s with
  | nil =>
    intro hx
    exact absurd hx (by simp [replaceChar])
  | cons a tl ih =>
    intro hx
    have hx2 : x ∈ (if a = c then rep else [a]) ∨ x ∈ replaceChar c rep tl :=
      List.mem_append.mp hx
    rcases hx2 with h1 | h2
    · by_cases hac : a = c
      · rw [if_pos hac] at h1
        exact Or.inl h1
      · rw [if_neg hac] at h1
        have hxa : x = a := by simpa using h1
        subst hxa
        exact Or.inr ⟨by simp, hac⟩
    · rcases ih h2 with h | ⟨hmem, hne⟩
      · exact Or.inl h
      · exact Or.inr ⟨by simp [hmem], hne⟩

theorem cf_chars {x : Char} {s : Str} (hx : x ∈ comparison_format s) :
    lowChar x = x ∧ x ≠ apos ∧ x ≠ smartQuote ∧ x ≠ '&' := by
  unfold comparison_format at hx
  rcases mem_replaceChar hx with hand | ⟨hx2, hamp⟩
  · have hx3 : x = 'a' ∨ x = 'n' ∨ x = 'd' := by simpa using hand
    rcases hx3 with h | h | h <;> subst h <;>
      exact ⟨by decide, by decide, by decide, by decide⟩
  · rcases mem_replaceChar hx2 with h0 | ⟨hx3, hsq⟩
    · exact absurd h0 (by simp)
    · rcases mem_replaceChar hx3 with h0 | ⟨hx4, hap⟩
      · exact absurd h0 (by simp)
      · rcases mem_lowStr hx4 with ⟨y, _, hxy⟩
        subst hxy
        exact ⟨lowChar_fix y, hap, hsq, hamp⟩

/-- C8: the string normalization used by the Fuzzy Matcher (comparison_format
in relay.py, which lower-cases, strips ASCII and smart-quote apostrophes and
rewrites the ampersand to the word spelled a-n-d) is idempotent: applying it
twice gives the same string as applying it once. -/
theorem comparison_format_idem (s : Str) :
    comparison_format (comparison_format s) = comparison_format s := by
  have h1 : lowStr (comparison_format s) = comparison_format s :=
    lowStr_id (fun x hx => (cf_chars hx).1)
  have h2 : replaceChar apos [] (comparison_format s) = comparison_format s :=
    replaceChar_id (fun x hx => (cf_chars hx).2.1)
  have h3 : replaceChar smartQuote [] (comparison_format s) = comparison_format s :=
    replaceChar_id (fun x hx => (cf_chars hx).2.2.1)
  have h4 : replaceChar '&' ['a', 'n', 'd'] (comparison_format s) = comparison_format s :=
    replaceChar_id (fun x hx => (cf_chars hx).2.2.2)
  show replaceChar '&' ['a', 'n', 'd']
      (replaceChar smartQuote [] (replaceChar apos [] (lowStr (comparison_format s)))) =
    comparison_format s
  rw [h1, h2, h3, h4]

/-! ## Data model: Track (track.py) and ledger rows (database.py) -/

/-- Track from track.py: a frozen dataclass with title, artist, an optional
canonical recording MBID `mbid` and an optional source-local `track_mbid`. -/
structure Track where
  title : Str
  artist : Str
  mbid : Option Str := none
  track_mbid : Option Str := none
deriving DecidableEq, Repr

/-- One row of a ledger table (database.py, create_tables): integer primary
key plus title, artist, trackId and recordingId columns.  The title and
artist columns are modeled with the non-null strings the embedded callers
always supply; trackId and recordingId are nullable. -/
structure LedgerRow where
  rowid : Nat
  title : Str
  artist : Str
  track_mbid : Option Str
  rec_mbid : Option Str
deriving DecidableEq, Repr

/-- Python exception classes that the embedded code can raise. -/
inductive PyErr where
  | attributeError
  | typeError
  | keyError
  | indexError
  | responseError
deriving DecidableEq, Repr

/-! ## Ledger insert (database.py, add_track) -/

/-- Database.add_track: an INSERT OR IGNORE into a table whose only
uniqueness constraint (besides the autoincrement primary key) is
`trackId TEXT UNIQUE`.  Under SQLite semantics the insert is ignored exactly
when the new trackId is non-NULL and equal to an existing non-NULL trackId;
a NULL trackId never conflicts, so the row is always appended. -/
def add_track (tbl : List LedgerRow) (title artist : Str)
    (track_mbid rec_mbid : Option Str) : List LedgerRow :=
  match track_mbid with
  | some v =>
    if tbl.any (fun r => r.track_mbid == some v) then tbl
    else tbl ++ [⟨tbl.length + 1, title, artist, some v, rec_mbid⟩]
  | none => tbl ++ [⟨tbl.length + 1, title, artist, none, rec_mbid⟩]

/-- C3 counterexample: inserting the same entry twice is not a no-op when the
entry carries a recording id but a NULL track MBID — the partition after two
inserts differs from the partition after one, although an entry with the same
recording id (and the same title and artist) is already present. -/
theorem add_track_dup_counterexample :
    add_track
      (add_track [] (("T").toList) (("A").toList) none (some (("r").toList)))
      (("T").toList) (("A").toList) none (some (("r").toList)) ≠
    add_track [] (("T").toList) (("A").toList) none (some (("r").toList)) := by
  decide

/-- C3 amended: ledger insertion is idempotent only on the source-local track
MBID — re-adding an entry whose track MBID is non-null leaves the table
unchanged, since the first insert guarantees a row with that trackId exists
and the second is then ignored. -/
theorem add_track_idem_on_track_mbid (tbl : List LedgerRow) (t a : Str)
    (v : Str) (r : Option Str) :
    add_track (add_track tbl t a (some v) r) t a (some v) r =
      add_track tbl t a (some v) r := by
  by_cases h : tbl.any (fun row => row.track_mbid == some v) = true
  · simp [add_track, h]
  · have h1 : add_track tbl t a (some v) r =
        tbl ++ [⟨tbl.length + 1, t, a, some v, r⟩] := by
      simp [add_track, h]
    rw [h1]
    simp [add_track, List.any_append]

/-! ## Fuzzy matching (relay.py, check_list_match) -/

/-- Python substring scan: does `pat` occur contiguously starting at the head
of `s`? -/
def headSeg (pat s : Str) : Bool :=
  match pat, s with
  | [], _ => true
  | _ :: _, [] => false
  | p :: ps, c :: cs => p == c && headSeg ps cs

/-- Python `pat in hay` on strings: `pat` occurs contiguously somewhere in
`hay`. -/
def strHas (hay pat : Str) : Bool :=
  match hay with
  | [] => pat.isEmpty
  | _ :: tl => headSeg pat hay || strHas tl pat

/-- An element of the target list handed to check_list_match: either a
(title, artist) tuple (the Last.FM loved-tracks representation) or a Track.
The PlexTrack arm of the source match statement concerns the external
plexapi object and is outside the embedded core. -/
inductive CLEntry where
  | tup (t a : Str)
  | trk (t : Track)
deriving DecidableEq, Repr

/-- The comparison fields extracted from a target-list element by
check_list_match: a tuple gets both components normalized; a Track gets a
normalized title but its artist is taken verbatim (relay.py line 130 applies
no comparison_format to the Track artist). -/
def clEntryFields (e : CLEntry) : Str × Str :=
  match e with
  | .tup t a => (comparison_format t, comparison_format a)
  | .trk t => (comparison_format t.title, t.artist)

/-- Loop of check_list_match: return the first element whose title field
matches by two-sided substring containment and whose artist field then also
matches by containment; a title match without an artist match only logs and
scanning continues. -/
def clm_go (title artist : Str) : List CLEntry → Option CLEntry
  | [] => none
  | e :: rest =>
    let f := clEntryFields e
    if strHas f.1 title || strHas title f.1 then
      if strHas f.2 artist || strHas artist f.2 then some e
      else clm_go title artist rest
    else clm_go title artist rest

/-- check_list_match from relay.py: normalize the probe title and artist with
comparison_format, then scan the target list; `none` models the Python
return value False. -/
def check_list_match (track : Track) (target : List CLEntry) : Option CLEntry :=
  clm_go (comparison_format track.title) (comparison_format track.artist) target

/-- C6 counterexample: two Tracks that both carry the same non-null recording
id are not matched by check_list_match when their titles differ, so the
same-track comparison does not hold iff the recording ids are equal. -/
theorem check_list_match_id_counterexample :
    (Track.mk (("a").toList) (("b").toList) (some (("1").toList)) none).mbid =
      (Track.mk (("c").toList) (("d").toList) (some (("1").toList)) none).mbid ∧
    (Track.mk (("a").toList) (("b").toList) (some (("1").toList)) none).mbid ≠ none ∧
    check_list_match
      (Track.mk (("a").toList) (("b").toList) (some (("1").toList)) none)
      [CLEntry.trk (Track.mk (("c").toList) (("d").toList) (some (("1").toList)) none)] =
      none := by
  decide

/-- C6 amended: check_list_match never consults recording identifiers — its
outcome is invariant under arbitrary replacement of both compared tracks'
mbid and track_mbid fields, so whether two identities are matched depends
only on their title and artist strings, never on recording-id equality. -/
theorem check_list_match_ignores_ids (x y : Track) (mx tx my ty : Option Str) :
    (check_list_match ⟨x.title, x.artist, mx, tx⟩
        [CLEntry.trk ⟨y.title, y.artist, my, ty⟩]).isSome =
      (check_list_match x [CLEntry.trk y]).isSome := by
  simp only [check_list_match, clm_go, clEntryFields]
  by_cases h1 : (strHas (comparison_format y.title) (comparison_format x.title) ||
      strHas (comparison_format x.title) (comparison_format y.title)) = true
  · simp only [h1, if_pos]
    by_cases h2 : (strHas y.artist (comparison_format x.artist) ||
        strHas (comparison_format x.artist) y.artist) = true
    · simp [h2]
    · simp [h2]
  · simp [h1]

/-! ## Metadata Resolver (musicbrainz.py and listenbrainz.py) -/

/-- A query issued to the metadata-search collaborator
(mbz.search_recordings): either a title query with an artist filter, or a
bare lucene query string. -/
inductive MBQuery where
  | byTitleArtist (q : Str) (artist : Str)
  | byQuery (q : Str)
deriving DecidableEq, Repr

/-- The Python f-string `tid:{track_mbid}`: interpolating the value None
produces the literal text `tid:None`. -/
def fstr_tid (track_mbid : Option Str) : Str :=
  (("tid:").toList) ++ (match track_mbid with
    | none => ("None").toList
    | some s => s)

/-- The query-selection branch of query_recording_mbid (musicbrainz.py):
when track_mbid is not None the code searches by title and artist; when
track_mbid is None the code issues the identifier query, interpolating the
absent hint. -/
def qrmQuery (track_mbid : Option Str) (title artist : Str) : MBQuery :=
  match track_mbid with
  | some _ => .byTitleArtist title artist
  | none => .byQuery (fstr_tid none)

/-- One artist-credit element of a MusicBrainz search candidate, with its
optional name field. -/
structure MBCredit where
  name : Option Str
deriving DecidableEq, Repr

/-- A MusicBrainz search candidate: optional id and title fields and an
optional artist-credit list (absent key modeled as none). -/
structure MBCand where
  id : Option Str
  title : Option Str
  artist_credit : Option (List MBCredit)
deriving DecidableEq, Repr

/-- Result handling of query_recording_mbid: the recording-list of the
response is taken; a missing list means the subscript on None raises
TypeError; an empty list yields None; otherwise the id of the first
candidate is returned with no title or artist comparison whatsoever. -/
def query_recording_mbid_result : Option (List MBCand) → Except PyErr (Option Str)
  | none => .error .typeError
  | some [] => .ok none
  | some (c :: _) => .ok c.id

/-- query_recording_mbid (musicbrainz.py): select the query from the
track-MBID hint, hand it to the collaborator and process the response. -/
def query_recording_mbid (track_mbid : Option Str) (title artist : Str)
    (respond : MBQuery → Option (List MBCand)) : Except PyErr (Option Str) :=
  query_recording_mbid_result (respond (qrmQuery track_mbid title artist))

/-- C4: the query-selection branch of query_recording_mbid is inverted
relative to the claim — with the source-local hint present the collaborator
is queried by title and artist, and with the hint absent it receives the
identifier-qualified query with the interpolated text `tid:None`. -/
theorem qrmQuery_branch_inverted (m : Str) (t a : Str) :
    qrmQuery (some m) t a = MBQuery.byTitleArtist t a ∧
      qrmQuery none t a = MBQuery.byQuery (("tid:None").toList) :=
  ⟨rfl, rfl⟩

/-- Evaluation of one candidate inside the try block of
ListenBrainz._find_mbid_match: a None title or a None artist-credit name
raises AttributeError (the lower call on None, which the except clause does
not catch); a missing artist-credit key raises KeyError and an empty credit
list IndexError (both caught); a lowercase-equal title and artist pair
returns the id when present (a missing id key is a caught KeyError);
otherwise the candidate is a non-match. -/
def candMatch (ttl art : Str) (c : MBCand) : Except PyErr (Option Str) :=
  match c.title with
  | none => .error .attributeError
  | some ct =>
    match c.artist_credit with
    | none => .error .keyError
    | some [] => .error .indexError
    | some (cr :: _) =>
      match cr.name with
      | none => .error .attributeError
      | some ca =>
        if lowStr ct = lowStr ttl ∧ lowStr ca = lowStr art then
          match c.id with
          | none => .error .keyError
          | some i => .ok (some i)
        else .ok none

/-- ListenBrainz._find_mbid_match: scan the candidates in order, returning
the first exact lowercase title-and-artist match; IndexError, KeyError and
TypeError from a candidate are caught and scanning continues; an
AttributeError propagates; an exhausted scan returns None. -/
def find_mbid_match (ttl art : Str) : List MBCand → Except PyErr (Option Str)
  | [] => .ok none
  | c :: rest =>
    match candMatch ttl art c with
    | .ok (some i) => .ok (some i)
    | .ok none => find_mbid_match ttl art rest
    | .error .attributeError => .error .attributeError
    | .error _ => find_mbid_match ttl art rest

/-- C5 counterexample: with input title `a` and artist `b`,
query_recording_mbid returns the id `I` of a first candidate whose title `x`
and artist `y` do not equal the input in any normalization, instead of the
None the claim requires for a search with no exact match. -/
theorem query_recording_mbid_no_filter_counterexample :
    query_recording_mbid none (("a").toList) (("b").toList)
        (fun _ => some [⟨some (("I").toList), some (("x").toList),
          some [⟨some (("y").toList)⟩]⟩]) =
      .ok (some (("I").toList)) ∧
    lowStr (("x").toList) ≠ lowStr (("a").toList) ∧
    lowStr (("y").toList) ≠ lowStr (("b").toList) :=
  ⟨rfl, by decide, by decide⟩

/-- C5 amended: the first-exact-match scan belongs to
ListenBrainz._find_mbid_match, not to query_recording_mbid.  The scan
returns None on an empty result set, skips without raising a candidate whose
artist-credit key is absent, returns the id of the first candidate whose
lowercased title and first artist-credit name equal the lowercased input,
and raises AttributeError on a candidate whose title field is null; the
relay-path resolver query_recording_mbid returns the first candidate id with
no filtering at all. -/
theorem find_mbid_match_spec (ttl art : Str) (c : MBCand) (rest : List MBCand) :
    (find_mbid_match ttl art [] = .ok none) ∧
    (c.artist_credit = none → c.title ≠ none →
      find_mbid_match ttl art (c :: rest) = find_mbid_match ttl art rest) ∧
    (∀ ct ca crs i, c.title = some ct → lowStr ct = lowStr ttl →
      c.artist_credit = some (⟨some ca⟩ :: crs) → lowStr ca = lowStr art →
      c.id = some i →
      find_mbid_match ttl art (c :: rest) = .ok (some i)) ∧
    (c.title = none →
      find_mbid_match ttl art (c :: rest) = .error .attributeError) ∧
    (∀ cs : List MBCand, query_recording_mbid_result (some (c :: cs)) = .ok c.id) := by
  refine ⟨rfl, ?_, ?_, ?_, ?_⟩
  · intro hac hti
    rcases hct : c.title with _ | ct
    · exact absurd hct hti
    · simp [find_mbid_match, candMatch, hct, hac]
  · intro ct ca crs i hct hlt hac hla hid
    simp [find_mbid_match, candMatch, hct, hac, hlt, hla, hid]
  · intro hct
    simp [find_mbid_match, candMatch, hct]
  · intro cs
    rfl

/-- C5 amended, witnessed: a concrete two-candidate scan where the first
candidate lacks an artist-credit and is skipped, and the second is an exact
lowercase match whose id is returned. -/
theorem find_mbid_match_spec_witness :
    find_mbid_match (("Ab").toList) (("Cd").toList)
        [⟨some (("skip").toList), some (("Ab").toList), none⟩,
         ⟨some (("hit").toList), some (("aB").toList),
          some [⟨some (("cD").toList)⟩]⟩] =
      .ok (some (("hit").toList)) := by
  have h1 := (find_mbid_match_spec (("Ab").toList) (("Cd").toList)
    ⟨some (("skip").toList), some (("Ab").toList), none⟩
    [⟨some (("hit").toList), some (("aB").toList),
      some [⟨some (("cD").toList)⟩]⟩]).2.1 rfl (by decide)
  have h2 := ((find_mbid_match_spec (("Ab").toList) (("Cd").toList)
    ⟨some (("hit").toList), some (("aB").toList),
      some [⟨some (("cD").toList)⟩]⟩ []).2.2.1
    (("aB").toList) (("cD").toList) [] (("hit").toList)
    rfl (by decide) rfl (by decide) rfl)
  rw [h1, h2]

/-! ## Track conversion and the love loop (relay.py) -/

/-- The fields read off a plexapi track by track_from_plex: title, artist
title and the parsed track MBID. -/
structure PlexRaw where
  title : Str
  artist : Str
  track_mbid : Option Str
deriving DecidableEq, Repr

/-- track_from_plex (relay.py): on a database hit the stored recordingId is
reused; on a miss the MusicBrainz resolver result is consulted and None is
returned when it yields nothing; otherwise a Track is built. -/
def track_from_plex (p : PlexRaw) (db_match : Option LedgerRow)
    (resolved : Option Str) : Option Track :=
  match db_match with
  | some row => some ⟨p.title, p.artist, row.rec_mbid, p.track_mbid⟩
  | none =>
    match resolved with
    | none => none
    | some r => some ⟨p.title, p.artist, some r, p.track_mbid⟩

/-- to_tracks (relay.py): every plexapi track is converted with
track_from_plex and the result — including a None for a track the resolver
missed — is added to the output collection.  The Python set is modeled as
the list of its members; deduplication does not affect whether None is a
member. -/
def to_tracks (plex_tracks : List PlexRaw) (dbq : PlexRaw → Option LedgerRow)
    (resolve : PlexRaw → Option Str) : List (Option Track) :=
  plex_tracks.map (fun p => track_from_plex p (dbq p) (resolve p))

/-- An adapter love call issued by the plex_relay_loves loop. -/
inductive LoveCall where
  | lbzLove (t : Track)
  | lfmLove (t : Track)
deriving DecidableEq, Repr

/-- One iteration of the plex_relay_loves loop (relay.py lines 72 to 99)
with both adapters configured: the ledger insert runs first — on the None
member produced by a resolver miss the attribute access `title` on None
raises AttributeError — then ListenBrainz receives a love unless the
recording id is already in its remote-state set, and Last.FM receives a love
unless check_list_match finds it in the Last.FM loved list. -/
def plex_relay_love_step (tbl : List LedgerRow) (track : Option Track)
    (lbz_loves : List (Option Str)) (lfm_loves : List CLEntry) :
    Except PyErr (List LedgerRow × List LoveCall) :=
  match track with
  | none => .error .attributeError
  | some t =>
    let tbl2 := add_track tbl t.title t.artist t.track_mbid t.mbid
    let lbzc : List LoveCall :=
      if lbz_loves.contains t.mbid then [] else [.lbzLove t]
    let lfmc : List LoveCall :=
      if (check_list_match t lfm_loves).isSome then [] else [.lfmLove t]
    .ok (tbl2, lbzc ++ lfmc)

/-- C1: on the Scenario A input — a Plex track with no database match for
which the resolver returns no recording MBID — to_tracks yields the set
containing None, and the per-track loop then crashes with AttributeError at
the ledger insert instead of skipping the track: the pass does not complete
without raising. -/
theorem to_tracks_none_member_crashes :
    to_tracks [⟨("Breathe").toList, ("Télépopmusik").toList, none⟩]
        (fun _ => none) (fun _ => none) = [none] ∧
    plex_relay_love_step [] none [] [] = .error .attributeError :=
  ⟨rfl, rfl⟩

/-! ## Removal step (relay.py, plex_reset) and adapter resets -/

/-- The dynamic argument handed to an adapter reset: plex_reset passes the
raw ledger-row mapping to the ListenBrainz adapter and a freshly built Track
to the Last.FM adapter. -/
inductive TrackOrRow where
  | row (r : LedgerRow)
  | trk (t : Track)
deriving DecidableEq, Repr

/-- An adapter reset call recorded by the plex_reset loop. -/
inductive ResetCall where
  | lbz (arg : TrackOrRow)
  | lfm (t : Track)
deriving DecidableEq, Repr

/-- SQL equality against a bound parameter: NULL compares false to
everything, including NULL. -/
def sqlEqOpt : Option Str → Option Str → Bool
  | some a, some b => a == b
  | _, _ => false

/-- Database.delete_by_rec_id: DELETE FROM the table WHERE recordingId
equals the bound value under SQL comparison semantics. -/
def delete_by_rec_id (tbl : List LedgerRow) (rec_mbid : Option Str) : List LedgerRow :=
  tbl.filter (fun r => !(sqlEqOpt r.rec_mbid rec_mbid))

/-- Loop of plex_reset: iterate over the snapshot of the table entries; for
every entry whose recordingId is not among the current Plex recording ids
(Python membership, where None equals None), delete it from the source table
and call the ListenBrainz reset with the row mapping and the Last.FM reset
with a Track built from the row title and artist. -/
def plex_reset_go (plex_ids : List (Option Str)) :
    List LedgerRow → List LedgerRow → List LedgerRow × List ResetCall
  | tbl, [] => (tbl, [])
  | tbl, r :: rest =>
    if plex_ids.contains r.rec_mbid then plex_reset_go plex_ids tbl rest
    else
      let tbl2 := delete_by_rec_id tbl r.rec_mbid
      let next := plex_reset_go plex_ids tbl2 rest
      (next.1, ResetCall.lbz (.row r) :: ResetCall.lfm ⟨r.title, r.artist, none, none⟩ :: next.2)

/-- plex_reset (relay.py) over one source table with the reset table carried
alongside: the function reads all entries of the source table, removes stale
ones and issues adapter resets; the reset table is passed through untouched
because the source contains no insert into it. -/
def plex_reset (tbl resetTbl : List LedgerRow) (tracks : List Track) :
    List LedgerRow × List LedgerRow × List ResetCall :=
  let r := plex_reset_go (tracks.map (fun t => t.mbid)) tbl tbl
  (r.1, resetTbl, r.2)

/-- C2: on a loved partition holding one entry with recording id `abc` that
the current authoritative set no longer contains, the removal step deletes
the entry from the loved table and issues the adapter resets, but the
reset-pending table stays empty — no entry is moved into it — and the entry
is gone from the Ledger although no adapter confirmation precedes the
deletion. -/
theorem plex_reset_does_not_stage :
    plex_reset [⟨1, ("T").toList, ("A").toList, none, some (("abc").toList)⟩] [] [] =
      ([], [],
       [ResetCall.lbz (.row ⟨1, ("T").toList, ("A").toList, none, some (("abc").toList)⟩),
        ResetCall.lfm ⟨("T").toList, ("A").toList, none, none⟩]) := by
  decide

/-- ListenBrainz.reset (listenbrainz.py): the argument is accessed with
`track.get` on the key track_mbid, so a ledger-row mapping yields a
feedback-0 submission keyed by the source-local track MBID, while a Track
dataclass has no such attribute and the access raises AttributeError. -/
def listenbrainz_reset (arg : TrackOrRow) : Except PyErr (Int × Option Str) :=
  match arg with
  | .row r => .ok (0, r.track_mbid)
  | .trk _ => .error .attributeError

/-- C10: ListenBrainz.reset succeeds exactly on ledger-row mappings, where it
withdraws feedback keyed by the source-local track MBID rather than the
canonical recording MBID, and raises AttributeError on every Track value —
while the plex_reset loop hands the row to ListenBrainz and a Track to
Last.FM in the same iteration. -/
theorem listenbrainz_reset_shape :
    (∀ r : LedgerRow, listenbrainz_reset (.row r) = .ok (0, r.track_mbid)) ∧
    (∀ t : Track, listenbrainz_reset (.trk t) = .error .attributeError) ∧
    (∀ r : LedgerRow,
      (plex_reset [r] [] []).2.2 =
        [ResetCall.lbz (.row r), ResetCall.lfm ⟨r.title, r.artist, none, none⟩]) :=
  ⟨fun _ => rfl, fun _ => rfl, fun _ => rfl⟩

/-! ## Rollback driver (reset.py) and rate-limit retry -/

/-- Outcome of one feedback-submission request: success, a ResponseError
whose text contains 429, or some other ResponseError. -/
inductive CallOutcome where
  | ok
  | err429
  | errOther
deriving DecidableEq, Repr

/-- Observable events of the per-track submission in reset_lbz: an issued
submit_user_feedback call with its score and MBID, and the fixed sixty
second cooldown sleep. -/
inductive REvent where
  | submit (score : Int) (mbid : Option Str)
  | wait60
deriving DecidableEq, Repr

/-- The try-except body of the reset_lbz loop for one track, with the
outcomes of the successive requests given by `f`: a 429 ResponseError on the
first call triggers one sixty second wait and exactly one retry, whose own
failure propagates uncaught; a non-429 ResponseError is re-raised at once. -/
def lbz_reset_submit (t : Track) (f : Nat → CallOutcome) :
    List REvent × Option PyErr :=
  match f 0 with
  | .ok => ([.submit 0 t.mbid], none)
  | .err429 =>
    match f 1 with
    | .ok => ([.submit 0 t.mbid, .wait60, .submit 0 t.mbid], none)
    | _ => ([.submit 0 t.mbid, .wait60, .submit 0 t.mbid], some .responseError)
  | .errOther => ([.submit 0 t.mbid], some .responseError)

/-- A Python collection value flowing through reset_lbz: the list and set
cases of the runtime type. -/
inductive PyColl where
  | pyList (xs : List Track)
  | pySet (xs : List Track)
deriving DecidableEq, Repr

/-- The Python binary plus on these collections: list concatenation is
defined, every combination involving a set raises TypeError because set
defines no plus operator. -/
def pyConcat : PyColl → PyColl → Except PyErr PyColl
  | .pyList a, .pyList b => .ok (.pyList (a ++ b))
  | _, _ => .error .typeError

/-- ListenBrainz._get_all_feedback materializes its results as a Python set,
which all_loves and all_hates return unchanged. -/
def lbz_get_all_feedback (xs : List Track) : PyColl := .pySet xs

/-- The loop of reset_lbz over the combined track list, with per-track
request outcomes `f i`: events accumulate and the first propagated error
aborts the loop. -/
def reset_lbz_run (f : Nat → Nat → CallOutcome) (i : Nat) :
    List Track → List REvent × Option PyErr
  | [] => ([], none)
  | t :: rest =>
    let r := lbz_reset_submit t (f i)
    match r.2 with
    | some e => (r.1, some e)
    | none =>
      let next := reset_lbz_run f (i + 1) rest
      (r.1 ++ next.1, next.2)

/-- reset_lbz (reset.py): enumerate loved and hated feedback, combine the
two collections with the plus operator, then reset every track in the
combined collection. -/
def reset_lbz (loves hates : PyColl) (f : Nat → Nat → CallOutcome) :
    List REvent × Option PyErr :=
  match pyConcat loves hates with
  | .error e => ([], some e)
  | .ok (.pyList ts) => reset_lbz_run f 0 ts
  | .ok (.pySet ts) => reset_lbz_run f 0 ts

/-- C9: whenever both enumerations succeed, reset_lbz joins the two sets
returned by all_loves and all_hates with the list-concatenation operator,
which raises TypeError before any feedback submission is issued — the event
list is empty — so this path never clears any track feedback, whatever the
collections contain and however the service would have responded. -/
theorem reset_lbz_always_type_errors (ls hs : List Track)
    (f : Nat → Nat → CallOutcome) :
    reset_lbz (lbz_get_all_feedback ls) (lbz_get_all_feedback hs) f =
      ([], some PyErr.typeError) :=
  rfl

/-- The Last.FM mutating love call (lastfm.py): the pylast love request is
issued once; on success the fixed inter-request delay follows; a rate-limit
ResponseError propagates immediately — the method contains no retry. -/
inductive LfmEvent where
  | loveCall
  | delay
deriving DecidableEq, Repr

/-- LastFM.love with the outcome of its single request given by `f 0`. -/
def lastfm_love (f : Nat → CallOutcome) : List LfmEvent × Option PyErr :=
  match f 0 with
  | .ok => ([.loveCall, .delay], none)
  | _ => ([.loveCall], some .responseError)

/-- C7 counterexample: a Last.FM mutating call that receives a rate-limit
error is observed exactly once and the error propagates — there is no
sixty-second cooldown and no retry, contradicting the claim for this
adapter call. -/
theorem lastfm_love_no_retry_counterexample :
    lastfm_love (fun _ => CallOutcome.err429) =
      ([LfmEvent.loveCall], some PyErr.responseError) :=
  rfl

/-- C7 amended: only the ListenBrainz bulk rollback applies the retry
policy — on a 429 error its per-track submission waits the sixty second
cooldown and retries exactly once, so the call is observed exactly twice
when the retry succeeds, and a second consecutive rate-limit failure
propagates as an error; the Last.FM mutating call, by contrast, propagates a
rate-limit error after a single observation with no retry. -/
theorem rate_limit_retry_policy (t : Track) (f : Nat → CallOutcome)
    (h : f 0 = CallOutcome.err429) :
    (f 1 = CallOutcome.ok →
      lbz_reset_submit t f =
        ([.submit 0 t.mbid, .wait60, .submit 0 t.mbid], none)) ∧
    (f 1 = CallOutcome.err429 →
      lbz_reset_submit t f =
        ([.submit 0 t.mbid, .wait60, .submit 0 t.mbid], some PyErr.responseError)) ∧
    lastfm_love f = ([LfmEvent.loveCall], some PyErr.responseError) := by
  refine ⟨?_, ?_, ?_⟩
  · intro h1
    simp [lbz_reset_submit, h, h1]
  · intro h1
    simp [lbz_reset_submit, h, h1]
  · simp [lastfm_love, h]

/-- C7 amended, witnessed: with a first request that is rate limited and a
second that succeeds, the ListenBrainz per-track reset issues exactly two
submissions around one cooldown and reports success. -/
theorem rate_limit_retry_policy_witness :
    (fun n => if n = 0 then CallOutcome.err429 else CallOutcome.ok) 0 =
      CallOutcome.err429 ∧
    lbz_reset_submit ⟨("T").toList, ("A").toList, none, none⟩
        (fun n => if n = 0 then CallOutcome.err429 else CallOutcome.ok) =
      ([.submit 0 none, .wait60, .submit 0 none], none) :=
  ⟨rfl, (rate_limit_retry_policy ⟨("T").toList, ("A").toList, none, none⟩
    (fun n => if n = 0 then CallOutcome.err429 else CallOutcome.ok) rfl).1 rfl⟩

end RatingRelay
